import Mathlib

/-!
Shallow embedding of `src/threads.py` (class `DropboxToThreadsUploader`).

The script is a sequential orchestration of HTTP calls (Dropbox token
refresh, folder listing, temporary-link fetch, Threads post, file delete)
plus a best-effort Telegram notifier.  Every effectful call is modelled by
an outcome recorded in an `Env` value: an `Except String α` is either the
value the call returned or the text of the Python exception it raised.
`run` then becomes a total function from the configuration and the
environment to the list of observable events (notifications and outbound
API calls), in the order the script performs them.
-/

namespace Threads

/-- JSON values, as far as the script inspects them: it only ever calls
`dict.get`, tests truthiness and compares/returns leaves, so objects and
string leaves are kept and every other leaf is collapsed into `other`,
tagged with its Python truthiness (`0`, `false`, `null` and `[]` are
falsy, other leaves truthy). -/
inductive JVal : Type where
  | obj : List (String × JVal) → JVal
  | str : String → JVal
  | other : Bool → JVal

/-- First binding of a key in a JSON object's field list
(Python `json.load` collapses duplicate keys, so field lists are
effectively duplicate-free and first = only). -/
def lookupField : List (String × JVal) → String → Option JVal
  | [], _ => none
  | (k, v) :: rest, key => if k == key then some v else lookupField rest key

/-- Python `x.get(key)` where `x` came from JSON: returns
`some (field or absent)` when `x` is a dict, `none` when `x` is not a
dict (in Python: `AttributeError` raised). -/
def dictGet : JVal → String → Option (Option JVal)
  | JVal.obj fs, key => some (lookupField fs key)
  | JVal.str _, _ => none
  | JVal.other _, _ => none

/-- Python truthiness of a JSON value: empty dicts and empty strings are
falsy; other leaves carry their own truthiness tag. -/
def pyTruthy : JVal → Bool
  | JVal.obj fs => !fs.isEmpty
  | JVal.str s => !(s == "")
  | JVal.other b => b

/-- Python truthiness of a value that may be `None` (`None` is falsy). -/
def pyTruthyOpt : Option JVal → Bool
  | none => false
  | some v => pyTruthy v

/-- A Dropbox folder entry: `f.name` and `f.path_lower`. -/
structure FileEntry where
  name : String
  pathLower : String
deriving DecidableEq, Repr

/-- An HTTP response: `r.status_code` and `r.json()` (token endpoint). -/
structure HttpResp where
  status : Nat
  body : JVal

/-- An HTTP response from the Threads post endpoint: `res.status_code`
and `res.text`. -/
structure PostResp where
  status : Nat
  text : String
deriving DecidableEq, Repr

/-- The form-data dict built by `post_to_threads` (lines 90-103). -/
structure PostData where
  accessToken : Option String
  text : JVal
  mediaType : String
  videoUrl : Option String
  imageUrl : Option String

/-- The constructor arguments of `DropboxToThreadsUploader` that the
claims depend on. -/
structure Config where
  accountName : String
  threadsUserId : String
  threadsAccessToken : Option String
  dropboxFolder : String

/-- `self.script_name = f"<account_name>_threads_post.py"` (line 18). -/
def scriptName (accountName : String) : String :=
  accountName ++ "_threads_post.py"

/-- Outcomes of the external calls one `run` can make, in program order.
Each `Except String α` is: `ok` = the call returned, `error e` = the call
raised a Python exception rendered as `e`. -/
structure Env where
  /-- Result of opening and JSON-parsing the schedule file: `none` means
  `open`/`json.load` raised (missing file, malformed JSON, I/O error). -/
  captionCfg : Option JVal
  /-- `datetime.now(self.ist).strftime("%A")`. -/
  today : String
  /-- Timestamp string in the start notification. -/
  startTs : String
  /-- Outcome of `requests.post(DROPBOX_TOKEN_URL, ...)` (line 61). -/
  refresh : Except String HttpResp
  /-- Entries from the first `files_list_folder` call (line 66 via 122). -/
  listFiles : Except String (List FileEntry)
  /-- Index drawn by `random.choice` (line 127), reduced mod length. -/
  choiceIdx : Nat
  /-- Outcome of `files_get_temporary_link(...).link` (line 84). -/
  tempLink : Except String String
  /-- Entries from the second `files_list_folder` call (line 66 via 85). -/
  listFiles2 : Except String (List FileEntry)
  /-- Outcome of `requests.post(post_url, data=data)` (line 105). -/
  postResp : Except String PostResp
  /-- Outcome of `files_delete_v2` (line 130). -/
  deleteRes : Except String Unit
  /-- `f"<duration>.1f"` rendered for the final message (line 139). -/
  elapsed : String

/-- The distinct notification messages `run` can emit, with the dynamic
parts of each f-string as fields; `render` below produces the exact
message text. -/
inductive Msg : Type where
  | runStarted : String → Msg
  | noFiles : Msg
  | uploading : String → String → Nat → Msg
  | postSuccess : String → Msg
  | postFailed : String → String → Msg
  | deleted : String → Msg
  | deleteFailed : String → String → Msg
  | crashed : String → Msg
  | runComplete : String → Msg

/-- The f-string each `send_message` call site formats (the part after
the `[account] [script]` header added inside `send_message`). -/
def Msg.render : Msg → String
  | Msg.runStarted ts => "📡 Threads Run started at: " ++ ts
  | Msg.noFiles => "📭 No files found in Dropbox folder."
  | Msg.uploading name mt remaining =>
      "🚀 Uploading to Threads: " ++ name ++ "\n📐 Type: " ++ mt ++
        "\n📦 Remaining: " ++ toString remaining
  | Msg.postSuccess name => "✅ Successfully posted to Threads: " ++ name
  | Msg.postFailed name body => "❌ Threads post failed: " ++ name ++ "\n" ++ body
  | Msg.deleted name => "🗑️ Deleted file after attempt: " ++ name
  | Msg.deleteFailed name err => "⚠️ Failed to delete file " ++ name ++ ": " ++ err
  | Msg.crashed err => "❌ Script crashed: " ++ err
  | Msg.runComplete dur => "🏁 Run complete in " ++ dur ++ " seconds"

/-- Observable events of one run, in program order: each notification
(`send_message` call) and each outbound API call. -/
inductive Event : Type where
  | notify : Msg → Event
  | refreshCall : Event
  | listCall : Event
  | tempLinkCall : Event
  | publishCall : String → PostData → Event
  | deleteCall : String → Event

def Event.isDelete : Event → Bool
  | Event.deleteCall _ => true
  | _ => false

def Event.isPublish : Event → Bool
  | Event.publishCall _ _ => true
  | _ => false

def Event.isList : Event → Bool
  | Event.listCall => true
  | _ => false

def Event.isRunComplete : Event → Bool
  | Event.notify (Msg.runComplete _) => true
  | _ => false

def Event.isCrashNotify : Event → Bool
  | Event.notify (Msg.crashed _) => true
  | _ => false

def Event.isNoFilesNotify : Event → Bool
  | Event.notify Msg.noFiles => true
  | _ => false

/-- `requests.Response.raise_for_status`: raises `HTTPError` exactly for
client-error (4xx) and server-error (5xx) status codes. -/
def raiseForStatus (r : HttpResp) : Except String Unit :=
  if 400 ≤ r.status then Except.error ("HTTPError " ++ toString r.status)
  else Except.ok ()

/-- `refresh_dropbox_token` (lines 54-63): POST the refresh grant,
`raise_for_status`, then `r.json().get("access_token")` — which is `None`
when the key is absent, and raises when the body is not a dict. -/
def refreshDropboxToken (env : Env) : Except String (Option JVal) :=
  match env.refresh with
  | Except.error e => Except.error e
  | Except.ok r =>
    match raiseForStatus r with
    | Except.error e => Except.error e
    | Except.ok _ =>
      match dictGet r.body "access_token" with
      | none => Except.error "AttributeError: no attribute get"
      | some tok => Except.ok tok

/-- The `dropbox.Dropbox` client object, holding the credential it was
constructed with. -/
structure DropboxSession where
  oauth2AccessToken : Option JVal

/-- The `dropbox.Dropbox(oauth2_access_token=...)` constructor as the
script calls it (line 115, only this credential argument passed): the
SDK validates its credentials at construction and raises
`BadInputException` when none is set — here, when the access token is
falsy (`None` or empty) — and stores the token otherwise. -/
def dropboxNew (tok : Option JVal) : Except String DropboxSession :=
  if pyTruthyOpt tok then Except.ok ⟨tok⟩
  else Except.error "BadInputException: OAuth2 access token or refresh token must be set"

/-- `authenticate_dropbox` (lines 113-115). -/
def authenticateDropbox (env : Env) : Except String DropboxSession :=
  match refreshDropboxToken env with
  | Except.error e => Except.error e
  | Except.ok tok => dropboxNew tok

/-- Python `str.lower()` (ASCII case folding, which covers the
extension comparisons the script performs). -/
def pyLower (s : String) : String :=
  ⟨s.data.map Char.toLower⟩

/-- Python `str.endswith(pat)` for one pattern: the last `len(pat)`
characters equal `pat`. -/
def pyEndsWith (s pat : String) : Bool :=
  if pat.data.length ≤ s.data.length then
    s.data.drop (s.data.length - pat.data.length) == pat.data
  else false

/-- The extension allow-list test (lines 67-68):
`f.name.lower().endswith(('.mp4', '.mov', '.jpg', '.jpeg', '.png'))`. -/
def validExt (name : String) : Bool :=
  let n := pyLower name
  pyEndsWith n ".mp4" || pyEndsWith n ".mov" || pyEndsWith n ".jpg" ||
    pyEndsWith n ".jpeg" || pyEndsWith n ".png"

/-- The filter in `list_dropbox_files` (lines 65-68), applied to the
entries the provider returned. -/
def listDropboxFiles (entries : List FileEntry) : List FileEntry :=
  entries.filter (fun f => validExt f.name)

/-- `f"✨ #<account_name> ✨"`, the caption fallback (lines 75 and 78). -/
def fallbackCaption (accountName : String) : String :=
  "✨ #" ++ accountName ++ " ✨"

/-- The body of the `try` in `get_caption_from_config` (lines 71-75):
`config.get(account_key, {}).get(today, {}).get("caption", default)`,
where a `.get` on a non-dict raises. -/
def getCaptionTry (cfgFile : Option JVal) (accountKey today accountName : String) :
    Except String JVal :=
  match cfgFile with
  | none => Except.error "could not open or parse schedule file"
  | some config =>
    match dictGet config accountKey with
    | none => Except.error "AttributeError: no attribute get"
    | some lvl1Opt =>
      let lvl1 := lvl1Opt.getD (JVal.obj [])
      match dictGet lvl1 today with
      | none => Except.error "AttributeError: no attribute get"
      | some lvl2Opt =>
        let lvl2 := lvl2Opt.getD (JVal.obj [])
        match dictGet lvl2 "caption" with
        | none => Except.error "AttributeError: no attribute get"
        | some capOpt => Except.ok (capOpt.getD (JVal.str (fallbackCaption accountName)))

/-- `get_caption_from_config` (lines 70-78): the `try` body with every
exception caught and turned into the fallback caption. -/
def getCaptionFromConfig (cfgFile : Option JVal) (accountKey today accountName : String) :
    JVal :=
  match getCaptionTry cfgFile accountKey today accountName with
  | Except.ok v => v
  | Except.error _ => JVal.str (fallbackCaption accountName)

/-- Spec-side view of "the table defines a caption for that account and
weekday": the path `table[account_key][weekday]["caption"]` exists,
every step through a dict. -/
def captionEntry (cfgFile : Option JVal) (accountKey today : String) : Option JVal :=
  match cfgFile with
  | none => none
  | some config =>
    match dictGet config accountKey with
    | none => none
    | some lvl1Opt =>
      match dictGet (lvl1Opt.getD (JVal.obj [])) today with
      | none => none
      | some lvl2Opt =>
        match dictGet (lvl2Opt.getD (JVal.obj [])) "caption" with
        | none => none
        | some capOpt => capOpt

/-- `media_type = "VIDEO" if name.endswith((".mp4", ".mov")) else "IMAGE"`
with `name = file.name.lower()` (lines 81-82). -/
def mediaTypeFor (fileName : String) : String :=
  let n := pyLower fileName
  if pyEndsWith n ".mp4" || pyEndsWith n ".mov" then "VIDEO" else "IMAGE"

def THREADS_API_BASE : String := "https://graph.threads.net/v1.0"

/-- The form-data dict of `post_to_threads` (lines 90-103): caption plus,
when the temporary link is non-empty, a media-kind-specific URL field,
else `media_type = "TEXT_POST"`. -/
def buildPostData (token : Option String) (caption : JVal) (fileName tempLink : String) :
    PostData :=
  if tempLink ≠ "" then
    if mediaTypeFor fileName == "VIDEO" then
      ⟨token, caption, "VIDEO", some tempLink, none⟩
    else
      ⟨token, caption, "IMAGE", none, some tempLink⟩
  else
    ⟨token, caption, "TEXT_POST", none, none⟩

/-- `post_to_threads` (lines 80-111): temp-link fetch, a second folder
listing for the "remaining" count, the upload notification, the POST,
and the success/failure classification (`status_code == 200`).  Returns
the events it emits and either the boolean result or the exception that
escaped it. -/
def postToThreads (cfg : Config) (env : Env) (file : FileEntry) (caption : JVal) :
    List Event × Except String Bool :=
  match env.tempLink with
  | Except.error e => ([Event.tempLinkCall], Except.error e)
  | Except.ok link =>
    match env.listFiles2 with
    | Except.error e => ([Event.tempLinkCall, Event.listCall], Except.error e)
    | Except.ok entries =>
      let total := (listDropboxFiles entries).length
      let mt := mediaTypeFor file.name
      let url := THREADS_API_BASE ++ "/" ++ cfg.threadsUserId ++ "/threads"
      let data := buildPostData cfg.threadsAccessToken caption file.name link
      match env.postResp with
      | Except.error e =>
        ([Event.tempLinkCall, Event.listCall,
          Event.notify (Msg.uploading file.name mt total),
          Event.publishCall url data], Except.error e)
      | Except.ok res =>
        if res.status == 200 then
          ([Event.tempLinkCall, Event.listCall,
            Event.notify (Msg.uploading file.name mt total),
            Event.publishCall url data,
            Event.notify (Msg.postSuccess file.name)], Except.ok true)
        else
          ([Event.tempLinkCall, Event.listCall,
            Event.notify (Msg.uploading file.name mt total),
            Event.publishCall url data,
            Event.notify (Msg.postFailed file.name res.text)], Except.ok false)

/-- `random.choice(files)` (line 127): some element of the list, at the
index the random source produced, reduced mod the length; `none` only on
the empty list (where Python would raise, but the code guards this). -/
def selectFile (files : List FileEntry) (idx : Nat) : Option FileEntry :=
  match files with
  | [] => none
  | f :: fs => some ((f :: fs).getD (idx % (fs.length + 1)) f)

/-- The `try`/`except` body of `run` (lines 119-136): caption, auth,
list, empty-guard, random pick, publish, unconditional delete attempt;
any exception from auth/list/publish lands in the `except` clause which
emits the crash notification. -/
def runBody (cfg : Config) (env : Env) : List Event :=
  let caption := getCaptionFromConfig env.captionCfg cfg.accountName env.today cfg.accountName
  match authenticateDropbox env with
  | Except.error e => [Event.refreshCall, Event.notify (Msg.crashed e)]
  | Except.ok _dbx =>
    match env.listFiles with
    | Except.error e =>
      [Event.refreshCall, Event.listCall, Event.notify (Msg.crashed e)]
    | Except.ok entries =>
      match selectFile (listDropboxFiles entries) env.choiceIdx with
      | none => [Event.refreshCall, Event.listCall, Event.notify Msg.noFiles]
      | some file =>
        let post := postToThreads cfg env file caption
        let before := [Event.refreshCall, Event.listCall] ++ post.1
        match post.2 with
        | Except.error e => before ++ [Event.notify (Msg.crashed e)]
        | Except.ok _success =>
          match env.deleteRes with
          | Except.ok _ =>
            before ++ [Event.deleteCall file.pathLower,
              Event.notify (Msg.deleted file.name)]
          | Except.error e =>
            before ++ [Event.deleteCall file.pathLower,
              Event.notify (Msg.deleteFailed file.name e)]

/-- `run` (lines 117-139): the start notification, the guarded body, and
the `finally` clause's duration notification. -/
def run (cfg : Config) (env : Env) : List Event :=
  Event.notify (Msg.runStarted env.startTs) ::
    (runBody cfg env ++ [Event.notify (Msg.runComplete env.elapsed)])

/-! ### The notifier (`send_message`, lines 43-52) -/

/-- What one `send_message` call left behind: the text handed to the
Telegram API (if any) and the local log records `(level, text)`.
Levels use the numeric values of the Python `logging` module
(INFO 20, WARNING 30, ERROR 40). -/
structure SendOutcome where
  telegramSent : Option String
  logs : List (Nat × String)

/-- `full_msg = f"[<account>] [<script>]\n" + msg` (line 44). -/
def fullMsg (accountName msg : String) : String :=
  "[" ++ accountName ++ "] [" ++ scriptName accountName ++ "]\n" ++ msg

/-- The `try` body of `send_message` (lines 45-50): deliver via the bot
when configured (which may raise), else log the unconfigured warning;
then log the message locally. `deliver` is the Telegram transport:
its outcome on the text it is given. -/
def sendMessageTry (botConfigured : Bool) (deliver : String → Except String Unit)
    (accountName msg : String) (level : Nat) : Except String SendOutcome :=
  let full := fullMsg accountName msg
  if botConfigured then
    match deliver full with
    | Except.error e => Except.error e
    | Except.ok _ => Except.ok ⟨some full, [(level, full)]⟩
  else
    Except.ok ⟨none,
      [(30, "Telegram bot is not configured. Message not sent to Telegram."),
        (level, full)]⟩

/-- `send_message` (lines 43-52): the `try` body with every exception
caught and logged at error level; the result is always `ok` because the
`except` clause swallows the exception. -/
def sendMessagePy (botConfigured : Bool) (deliver : String → Except String Unit)
    (accountName msg : String) (level : Nat) : Except String SendOutcome :=
  match sendMessageTry botConfigured deliver accountName msg level with
  | Except.ok out => Except.ok out
  | Except.error e => Except.ok ⟨none, [(40, "Telegram send error: " ++ e)]⟩

end Threads

namespace Threads

/-! ### Shared concrete inputs for witnesses and counterexamples -/

/-- A configuration like the first `ACCOUNTS` entry. -/
def cfg0 : Config :=
  ⟨"eclipsed.by.you", "12345", some "threads-token", "/Threads_1"⟩

/-- An environment in which every call succeeds and the folder is empty. -/
def baseEnv : Env where
  captionCfg := none
  today := "Monday"
  startTs := "2026-01-01 00:00:00"
  refresh := Except.ok ⟨200, JVal.obj [("access_token", JVal.str "tok")]⟩
  listFiles := Except.ok []
  choiceIdx := 0
  tempLink := Except.ok "https://dl.example/x"
  listFiles2 := Except.ok []
  postResp := Except.ok ⟨200, "ok"⟩
  deleteRes := Except.ok ()
  elapsed := "1.0"

/-! ### Helper lemmas -/

/-- `getCaptionFromConfig` returns the entry at
`table[account_key][weekday]["caption"]` when that path exists, and the
fallback caption otherwise. -/
theorem getCaption_eq_captionEntry (cfgFile : Option JVal)
    (accountKey today accountName : String) :
    getCaptionFromConfig cfgFile accountKey today accountName =
      (captionEntry cfgFile accountKey today).getD
        (JVal.str (fallbackCaption accountName)) := by
  unfold getCaptionFromConfig getCaptionTry captionEntry
  cases cfgFile with
  | none => rfl
  | some config =>
    cases h1 : dictGet config accountKey with
    | none => simp [h1]
    | some lvl1Opt =>
      cases h2 : dictGet (lvl1Opt.getD (JVal.obj [])) today with
      | none => simp [h1, h2]
      | some lvl2Opt =>
        cases h3 : dictGet (lvl2Opt.getD (JVal.obj [])) "caption" with
        | none => simp [h1, h2, h3]
        | some capOpt =>
          cases capOpt with
          | none => simp [h1, h2, h3]
          | some v => simp [h1, h2, h3]

/-! ### Claims -/

/-- C5: if the caption table defines a caption for the account and
weekday, resolution returns exactly that value; if the lookup path does
not exist (missing file or parse failure, missing key at any level, or a
non-dict where a dict is expected), it returns the deterministic default,
which contains the account name.  (`getCaptionFromConfig` is a total
function: the source's `try`/`except` means it never raises.) -/
theorem C5_caption_resolution :
    ∀ (cfgFile : Option JVal) (accountKey today accountName : String),
      (∀ v, captionEntry cfgFile accountKey today = some v →
        getCaptionFromConfig cfgFile accountKey today accountName = v) ∧
      (captionEntry cfgFile accountKey today = none →
        getCaptionFromConfig cfgFile accountKey today accountName =
          JVal.str (fallbackCaption accountName)) ∧
      fallbackCaption accountName = "✨ #" ++ accountName ++ " ✨" := by
  intro cfgFile accountKey today accountName
  refine ⟨?_, ?_, rfl⟩
  · intro v hv
    rw [getCaption_eq_captionEntry, hv]
    rfl
  · intro hnone
    rw [getCaption_eq_captionEntry, hnone]
    rfl

/-- C6: the eligible-file filter keeps exactly the entries whose
lowercased name ends in `.mp4`, `.mov`, `.jpg`, `.jpeg` or `.png`; in
particular `[a.MP4, b.PNG, c.txt]` filters to `[a.MP4, b.PNG]`. -/
theorem C6_extension_filter :
    (∀ (entries : List FileEntry) (f : FileEntry),
        f ∈ listDropboxFiles entries ↔ f ∈ entries ∧ validExt f.name = true) ∧
      listDropboxFiles
          [⟨"a.MP4", "/a.mp4"⟩, ⟨"b.PNG", "/b.png"⟩, ⟨"c.txt", "/c.txt"⟩] =
        [⟨"a.MP4", "/a.mp4"⟩, ⟨"b.PNG", "/b.png"⟩] := by
  constructor
  · intro entries f
    simp [listDropboxFiles, List.mem_filter]
  · decide

/-- C7: with a non-empty temporary link, the post is VIDEO with the link
as `video_url` when the lowercased file name ends in `.mp4`/`.mov` and
IMAGE with the link as `image_url` otherwise; with no link, the post is
TEXT_POST carrying only the caption, regardless of the extension. -/
theorem C7_media_kind :
    ∀ (token : Option String) (caption : JVal) (fileName link : String),
      (link ≠ "" →
        (pyEndsWith (pyLower fileName) ".mp4" || pyEndsWith (pyLower fileName) ".mov") = true →
        buildPostData token caption fileName link =
          ⟨token, caption, "VIDEO", some link, none⟩) ∧
      (link ≠ "" →
        (pyEndsWith (pyLower fileName) ".mp4" || pyEndsWith (pyLower fileName) ".mov") = false →
        buildPostData token caption fileName link =
          ⟨token, caption, "IMAGE", none, some link⟩) ∧
      (link = "" →
        buildPostData token caption fileName link =
          ⟨token, caption, "TEXT_POST", none, none⟩) := by
  intro token caption fileName link
  refine ⟨?_, ?_, ?_⟩
  · intro hlink hext
    simp [buildPostData, mediaTypeFor, hlink, hext]
  · intro hlink hext
    simp [buildPostData, mediaTypeFor, hlink, hext]
  · intro hlink
    simp [buildPostData, hlink]

/-- An environment whose token refresh returns HTTP 200 with the body
`{"token_type": "bearer"}`, lacking `"access_token"`. -/
def envC10 : Env :=
  { baseEnv with
    refresh := Except.ok ⟨200, JVal.obj [("token_type", JVal.str "bearer")]⟩ }

/-- C10 counterexample: on a 200 token response without
`"access_token"`, `refresh_dropbox_token` does return `None` without
failing, but no storage session holding a `None` token is constructed:
`dropbox.Dropbox` validates its credentials and raises, so the claim's
"the storage session is then constructed with a None access token"
fails. -/
theorem C10_counterexample :
    refreshDropboxToken envC10 = Except.ok none ∧
      authenticateDropbox envC10 =
        Except.error "BadInputException: OAuth2 access token or refresh token must be set" ∧
      authenticateDropbox envC10 ≠ Except.ok ⟨none⟩ := by
  have hauth : authenticateDropbox envC10 =
      Except.error "BadInputException: OAuth2 access token or refresh token must be set" :=
    rfl
  refine ⟨rfl, hauth, ?_⟩
  rw [hauth]
  intro hc
  exact Except.noConfusion hc

/-- C10 (amended): a 2xx token response whose JSON object lacks
`"access_token"` makes `refresh_dropbox_token` return `None` rather than
fail — the missing credential is not detected at the refresh step — but
the `dropbox.Dropbox` constructor then raises `BadInputException` on the
`None` token, so no session is constructed and the run crashes. -/
theorem C10_missing_access_token :
    ∀ (cfg : Config) (env : Env) (st : Nat) (body : JVal),
      env.refresh = Except.ok ⟨st, body⟩ →
      200 ≤ st → st < 300 →
      dictGet body "access_token" = some none →
      refreshDropboxToken env = Except.ok none ∧
      authenticateDropbox env =
        Except.error "BadInputException: OAuth2 access token or refresh token must be set" ∧
      Event.notify
          (Msg.crashed "BadInputException: OAuth2 access token or refresh token must be set") ∈
        run cfg env := by
  intro cfg env st body hresp _h2xx hlt hget
  have hst : raiseForStatus ⟨st, body⟩ = Except.ok () := by
    unfold raiseForStatus
    simp only [ite_eq_right_iff]
    intro hge
    omega
  have hr : refreshDropboxToken env = Except.ok none := by
    simp [refreshDropboxToken, hresp, hst, hget]
  have hauth : authenticateDropbox env =
      Except.error "BadInputException: OAuth2 access token or refresh token must be set" := by
    simp [authenticateDropbox, hr, dropboxNew, pyTruthyOpt]
  refine ⟨hr, hauth, ?_⟩
  simp [run, runBody, hauth]

/-- Witness for the amended C10: a 200 response whose body is
`{"token_type": "bearer"}`. -/
theorem C10_missing_access_token_witness :
    refreshDropboxToken envC10 = Except.ok none ∧
      authenticateDropbox envC10 =
        Except.error "BadInputException: OAuth2 access token or refresh token must be set" ∧
      Event.notify
          (Msg.crashed "BadInputException: OAuth2 access token or refresh token must be set") ∈
        run cfg0 envC10 :=
  C10_missing_access_token cfg0 envC10 200 (JVal.obj [("token_type", JVal.str "bearer")])
    rfl (by decide) (by decide) rfl

end Threads

namespace Threads

/-- A sample selected file. -/
def fileA : FileEntry := ⟨"a.mp4", "/threads_1/a.mp4"⟩

/-- An environment whose Threads POST raises a network error. -/
def envNetFail : Env :=
  { baseEnv with postResp := Except.error "ConnectionError: connection reset" }

/-- C2 counterexample: when `requests.post` raises a network error,
`post_to_threads` does not return a failed result — the exception
propagates to the caller, contrary to the claim's "does not raise". -/
theorem C2_counterexample :
    (postToThreads cfg0 envNetFail fileA (JVal.str "cap")).2 =
        Except.error "ConnectionError: connection reset" ∧
      (postToThreads cfg0 envNetFail fileA (JVal.str "cap")).2 ≠ Except.ok true ∧
      (postToThreads cfg0 envNetFail fileA (JVal.str "cap")).2 ≠ Except.ok false := by
  have h : (postToThreads cfg0 envNetFail fileA (JVal.str "cap")).2 =
      Except.error "ConnectionError: connection reset" := rfl
  refine ⟨h, ?_, ?_⟩
  · rw [h]
    intro hc
    exact Except.noConfusion hc
  · rw [h]
    intro hc
    exact Except.noConfusion hc

/-- C2 (amended): when the temporary-link fetch and the HTTP post both
return, `post_to_threads` returns success exactly for HTTP status 200;
any other status yields a failed result whose notification captures the
response body, with exactly one post request issued (no retry).  A
network error raised by the HTTP call or the temporary-link fetch is not
absorbed: it propagates to the caller. -/
theorem C2_publisher_status :
    ∀ (cfg : Config) (env : Env) (file : FileEntry) (caption : JVal)
      (link : String) (entries : List FileEntry) (res : PostResp),
      env.tempLink = Except.ok link →
      env.listFiles2 = Except.ok entries →
      env.postResp = Except.ok res →
      (postToThreads cfg env file caption).2 = Except.ok (res.status == 200) ∧
      (res.status ≠ 200 →
        Event.notify (Msg.postFailed file.name res.text) ∈
          (postToThreads cfg env file caption).1) ∧
      (postToThreads cfg env file caption).1.countP Event.isPublish = 1 := by
  intro cfg env file caption link entries res hlink hlist hpost
  by_cases h200 : res.status = 200
  · refine ⟨?_, ?_, ?_⟩
    · simp [postToThreads, hlink, hlist, hpost, h200]
    · intro hne
      exact absurd h200 hne
    · simp [postToThreads, hlink, hlist, hpost, h200, Event.isPublish]
  · have hbeq : (res.status == 200) = false := by
      simp [h200]
    refine ⟨?_, ?_, ?_⟩
    · simp [postToThreads, hlink, hlist, hpost, hbeq]
    · intro _
      simp [postToThreads, hlink, hlist, hpost, hbeq]
    · simp [postToThreads, hlink, hlist, hpost, hbeq, Event.isPublish]

/-- An environment whose Threads POST returns HTTP 403. -/
def envPost403 : Env :=
  { baseEnv with postResp := Except.ok ⟨403, "forbidden"⟩ }

/-- Witness for C2: a 403 response yields a returned failure, its body
in the failure notification, and a single post request. -/
theorem C2_publisher_status_witness :
    (postToThreads cfg0 envPost403 fileA (JVal.str "cap")).2 = Except.ok false ∧
      Event.notify (Msg.postFailed "a.mp4" "forbidden") ∈
        (postToThreads cfg0 envPost403 fileA (JVal.str "cap")).1 ∧
      (postToThreads cfg0 envPost403 fileA (JVal.str "cap")).1.countP
        Event.isPublish = 1 := by
  obtain ⟨h1, h2, h3⟩ :=
    C2_publisher_status cfg0 envPost403 fileA (JVal.str "cap")
      "https://dl.example/x" [] ⟨403, "forbidden"⟩ rfl rfl rfl
  exact ⟨h1, h2 (by decide), h3⟩

end Threads

namespace Threads

/-! ### Helper lemmas about `run` -/

theorem authenticateDropbox_err (env : Env) (e : String)
    (h : refreshDropboxToken env = Except.error e) :
    authenticateDropbox env = Except.error e := by
  unfold authenticateDropbox
  rw [h]

/-- `post_to_threads` never emits the final duration notification. -/
theorem postToThreads_no_runComplete (cfg : Config) (env : Env)
    (file : FileEntry) (caption : JVal) :
    (postToThreads cfg env file caption).1.countP Event.isRunComplete = 0 := by
  rcases htl : env.tempLink with e | link
  · simp [postToThreads, htl, Event.isRunComplete]
  rcases hl2 : env.listFiles2 with e2 | entries
  · simp [postToThreads, htl, hl2, Event.isRunComplete]
  rcases hp : env.postResp with e3 | res
  · simp [postToThreads, htl, hl2, hp, Event.isRunComplete]
  by_cases h200 : (res.status == 200) = true <;>
    simp [postToThreads, htl, hl2, hp, h200, Event.isRunComplete]

/-- The guarded body of `run` never emits the duration notification:
that message is only produced by the `finally` clause. -/
theorem runBody_no_runComplete (cfg : Config) (env : Env) :
    (runBody cfg env).countP Event.isRunComplete = 0 := by
  rcases ha : authenticateDropbox env with e | dbx
  · simp [runBody, ha, Event.isRunComplete]
  rcases hl : env.listFiles with e2 | entries
  · simp [runBody, ha, hl, Event.isRunComplete]
  rcases hs : selectFile (listDropboxFiles entries) env.choiceIdx with _ | file
  · simp [runBody, ha, hl, hs, Event.isRunComplete]
  rcases hp2 : (postToThreads cfg env file
      (getCaptionFromConfig env.captionCfg cfg.accountName env.today cfg.accountName)).2
    with e3 | b
  · simp [runBody, ha, hl, hs, hp2, List.countP_append,
      postToThreads_no_runComplete, Event.isRunComplete]
  rcases hd : env.deleteRes with e4 | u
  · simp [runBody, ha, hl, hs, hp2, hd, List.countP_append,
      postToThreads_no_runComplete, Event.isRunComplete]
  · simp [runBody, ha, hl, hs, hp2, hd, List.countP_append,
      postToThreads_no_runComplete, Event.isRunComplete]

/-! ### Run-level claims -/

/-- An environment with one eligible file whose temporary-link fetch
raises a network error. -/
def envC1 : Env :=
  { baseEnv with
    listFiles := Except.ok [fileA]
    tempLink := Except.error "ConnectionError: connection reset" }

/-- C1 counterexample: a run in which a file is selected (the eligible
list is non-empty) but the publish step raises — here the temporary-link
fetch throws a network error — issues zero delete calls, so deletion is
not unconditional after selection. -/
theorem C1_counterexample :
    listDropboxFiles [fileA] ≠ [] ∧
      selectFile (listDropboxFiles [fileA]) envC1.choiceIdx = some fileA ∧
      (run cfg0 envC1).countP Event.isDelete = 0 := by
  refine ⟨?_, ?_, ?_⟩
  · decide
  · decide
  · decide

/-- C1 (amended): whenever the publish step *returns* — the
temporary-link fetch, the inner folder listing and the HTTP post all
complete, with any status, success or failure — exactly one delete call
is issued, and it targets the selected file; when the publish step
raises, the run crashes without a delete call. -/
theorem C1_delete_when_publish_returns :
    ∀ (cfg : Config) (env : Env) (dbx : DropboxSession) (entries : List FileEntry)
      (file : FileEntry) (link : String) (entries2 : List FileEntry) (res : PostResp),
      authenticateDropbox env = Except.ok dbx →
      env.listFiles = Except.ok entries →
      selectFile (listDropboxFiles entries) env.choiceIdx = some file →
      env.tempLink = Except.ok link →
      env.listFiles2 = Except.ok entries2 →
      env.postResp = Except.ok res →
      (run cfg env).countP Event.isDelete = 1 ∧
      Event.deleteCall file.pathLower ∈ run cfg env := by
  intro cfg env dbx entries file link entries2 res hauth hl hs htl hl2 hp
  by_cases h200 : (res.status == 200) = true <;>
    rcases hd : env.deleteRes with e | u <;>
    constructor <;>
    simp [run, runBody, hauth, hl, hs, postToThreads, htl, hl2, hp, hd, h200,
      List.countP_append, List.countP_cons, Event.isDelete]

/-- An environment with one eligible file and a failing (HTTP 500)
publish, everything else succeeding. -/
def envC1w : Env :=
  { baseEnv with
    listFiles := Except.ok [⟨"b.jpg", "/threads_1/b.jpg"⟩]
    postResp := Except.ok ⟨500, "server error"⟩ }

/-- Witness for the amended C1: a failed (HTTP 500) publish still leads
to exactly one delete call, for the selected file. -/
theorem C1_delete_when_publish_returns_witness :
    (run cfg0 envC1w).countP Event.isDelete = 1 ∧
      Event.deleteCall "/threads_1/b.jpg" ∈ run cfg0 envC1w :=
  C1_delete_when_publish_returns cfg0 envC1w ⟨some (JVal.str "tok")⟩
    [⟨"b.jpg", "/threads_1/b.jpg"⟩] ⟨"b.jpg", "/threads_1/b.jpg"⟩
    "https://dl.example/x" [] ⟨500, "server error"⟩
    rfl rfl (by decide) rfl rfl rfl

/-- C3: when the eligible-file list is empty, the run emits exactly the
start notification, the refresh and listing calls, the "no files"
notification and the final duration notification — zero publish calls
and zero delete calls. -/
theorem C3_empty_folder :
    ∀ (cfg : Config) (env : Env) (dbx : DropboxSession) (entries : List FileEntry),
      authenticateDropbox env = Except.ok dbx →
      env.listFiles = Except.ok entries →
      listDropboxFiles entries = [] →
      run cfg env =
        [Event.notify (Msg.runStarted env.startTs), Event.refreshCall, Event.listCall,
          Event.notify Msg.noFiles, Event.notify (Msg.runComplete env.elapsed)] ∧
      Event.notify Msg.noFiles ∈ run cfg env ∧
      (run cfg env).countP Event.isPublish = 0 ∧
      (run cfg env).countP Event.isDelete = 0 := by
  intro cfg env dbx entries hauth hl he
  have hrun : run cfg env =
      [Event.notify (Msg.runStarted env.startTs), Event.refreshCall, Event.listCall,
        Event.notify Msg.noFiles, Event.notify (Msg.runComplete env.elapsed)] := by
    simp [run, runBody, hauth, hl, he, selectFile]
  refine ⟨hrun, ?_, ?_, ?_⟩ <;> rw [hrun]
  · simp
  · rfl
  · rfl

/-- Witness for C3: the all-success environment over an empty folder. -/
theorem C3_empty_folder_witness :
    run cfg0 baseEnv =
      [Event.notify (Msg.runStarted "2026-01-01 00:00:00"), Event.refreshCall,
        Event.listCall, Event.notify Msg.noFiles,
        Event.notify (Msg.runComplete "1.0")] ∧
      Event.notify Msg.noFiles ∈ run cfg0 baseEnv ∧
      (run cfg0 baseEnv).countP Event.isPublish = 0 ∧
      (run cfg0 baseEnv).countP Event.isDelete = 0 :=
  C3_empty_folder cfg0 baseEnv ⟨some (JVal.str "tok")⟩ [] rfl rfl rfl

/-- C4: when the credential-refresh step fails (4xx/5xx token response
or a network error, i.e. `refresh_dropbox_token` raises), the run emits
exactly one crash notification carrying the error text, zero listing,
publish and delete calls, and still ends with the duration
notification. -/
theorem C4_refresh_failure :
    ∀ (cfg : Config) (env : Env) (e : String),
      refreshDropboxToken env = Except.error e →
      run cfg env =
        [Event.notify (Msg.runStarted env.startTs), Event.refreshCall,
          Event.notify (Msg.crashed e), Event.notify (Msg.runComplete env.elapsed)] ∧
      (run cfg env).countP Event.isCrashNotify = 1 ∧
      (run cfg env).countP Event.isList = 0 ∧
      (run cfg env).countP Event.isPublish = 0 ∧
      (run cfg env).countP Event.isDelete = 0 ∧
      (run cfg env).countP Event.isRunComplete = 1 := by
  intro cfg env e h
  have hauth := authenticateDropbox_err env e h
  have hrun : run cfg env =
      [Event.notify (Msg.runStarted env.startTs), Event.refreshCall,
        Event.notify (Msg.crashed e), Event.notify (Msg.runComplete env.elapsed)] := by
    simp [run, runBody, hauth]
  refine ⟨hrun, ?_, ?_, ?_, ?_, ?_⟩ <;> rw [hrun] <;> rfl

/-- An environment whose token-refresh POST raises a network error. -/
def envC4 : Env :=
  { baseEnv with refresh := Except.error "ConnectionError: timeout" }

/-- Witness for C4: a network error at token refresh. -/
theorem C4_refresh_failure_witness :
    run cfg0 envC4 =
      [Event.notify (Msg.runStarted "2026-01-01 00:00:00"), Event.refreshCall,
        Event.notify (Msg.crashed "ConnectionError: timeout"),
        Event.notify (Msg.runComplete "1.0")] ∧
      (run cfg0 envC4).countP Event.isCrashNotify = 1 ∧
      (run cfg0 envC4).countP Event.isList = 0 ∧
      (run cfg0 envC4).countP Event.isPublish = 0 ∧
      (run cfg0 envC4).countP Event.isDelete = 0 ∧
      (run cfg0 envC4).countP Event.isRunComplete = 1 :=
  C4_refresh_failure cfg0 envC4 "ConnectionError: timeout" rfl

/-- C8: every run — whatever the outcomes of every external call — ends
with the duration notification, and emits it exactly once. -/
theorem C8_final_notification :
    ∀ (cfg : Config) (env : Env),
      (run cfg env).getLast? = some (Event.notify (Msg.runComplete env.elapsed)) ∧
      (run cfg env).countP Event.isRunComplete = 1 := by
  intro cfg env
  constructor
  · have hshape : run cfg env =
        (Event.notify (Msg.runStarted env.startTs) :: runBody cfg env) ++
          [Event.notify (Msg.runComplete env.elapsed)] := by
      simp [run]
    rw [hshape, List.getLast?_append_cons]
    rfl
  · simp [run, List.countP_cons, List.countP_append,
      runBody_no_runComplete, Event.isRunComplete]

/-- C9: `send_message` always returns (never propagates an exception);
any text it hands to Telegram is the message prefixed with the account
name and the script identifier; with no bot configured nothing is sent
to Telegram and the message is logged locally, after the unconfigured
warning; and a delivery error is caught and logged at error level. -/
theorem C9_notifier :
    ∀ (botConfigured : Bool) (deliver : String → Except String Unit)
      (accountName msg : String) (level : Nat),
      ∃ out,
        sendMessagePy botConfigured deliver accountName msg level = Except.ok out ∧
        (∀ s, out.telegramSent = some s →
          s = "[" ++ accountName ++ "] [" ++ scriptName accountName ++ "]\n" ++ msg) ∧
        (botConfigured = false → out.telegramSent = none ∧
          out.logs =
            [(30, "Telegram bot is not configured. Message not sent to Telegram."),
              (level, fullMsg accountName msg)]) ∧
        (∀ e, botConfigured = true →
          deliver (fullMsg accountName msg) = Except.error e →
          out.logs = [(40, "Telegram send error: " ++ e)]) := by
  intro bot deliver account msg level
  cases bot with
  | false =>
    refine ⟨⟨none,
      [(30, "Telegram bot is not configured. Message not sent to Telegram."),
        (level, fullMsg account msg)]⟩, rfl, ?_, ?_, ?_⟩
    · intro s hs
      exact Option.noConfusion hs
    · intro _
      exact ⟨rfl, rfl⟩
    · intro e hb
      exact Bool.noConfusion hb
  | true =>
    rcases hd : deliver (fullMsg account msg) with e | u
    · refine ⟨⟨none, [(40, "Telegram send error: " ++ e)]⟩, ?_, ?_, ?_, ?_⟩
      · simp [sendMessagePy, sendMessageTry, hd]
      · intro s hs
        exact Option.noConfusion hs
      · intro hb
        exact Bool.noConfusion hb
      · intro e2 _ hd2
        injection hd2 with he
        rw [he]
    · cases u
      refine ⟨⟨some (fullMsg account msg), [(level, fullMsg account msg)]⟩, ?_, ?_, ?_, ?_⟩
      · simp [sendMessagePy, sendMessageTry, hd]
      · intro s hs
        injection hs with h
        exact h.symm
      · intro hb
        exact Bool.noConfusion hb
      · intro e2 _ hd2
        exact Except.noConfusion hd2

end Threads
